import Mathlib

/-!
Shallow embedding of the cylc-flow xtrigger layer:
`file_exists.py`, `file_contains.py`, `require_previous.py`,
`timeout_handler.py` and `suite_state_plus.py`.

Python values that live in the result dictionaries are modelled by `Val`;
dictionaries by insertion-ordered association lists; Python exceptions
(`NameError` from a reference to an unbound local, `IndexError`,
`KeyError`) by an `Except PyErr` result.  External collaborators
(filesystem glob results, the rsync subprocess, the datetime parser, the
sqlite state store, `wall_clock`) are passed in as explicit data, so each
checker is a pure function of its arguments and of the observed world.
-/

namespace Cylc

/-- A value stored in a checker's result dictionary. -/
inductive Val where
  | str (s : String)
  | bool (b : Bool)
deriving DecidableEq, Repr

/-- A Python dict with string keys, as an insertion-ordered association list. -/
abbrev Dict := List (String × Val)

/-- Python `d[k] = v`: replace the value in place if the key exists, else append. -/
def dset (d : Dict) (k : String) (v : Val) : Dict :=
  if d.any (fun p => p.1 == k) then
    d.map (fun p => if p.1 == k then (k, v) else p)
  else
    d ++ [(k, v)]

/-- Python `d.get(k)`: first (and only) binding of the key. -/
def dget (d : Dict) (k : String) : Option Val :=
  (d.find? (fun p => p.1 == k)).map (fun p => p.2)

/-- Python exceptions that the embedded code can raise. -/
inductive PyErr where
  | nameError (var : String)
  | indexError
  | keyError (key : String)
deriving DecidableEq, Repr

/-- Does `hay` start with `pat`? -/
def listStartsWith : List Char → List Char → Bool
  | [], _ => true
  | _ :: _, [] => false
  | c :: cs, h :: hs => c == h && listStartsWith cs hs

/-- Does `hay` contain `pat` as a contiguous run (at any position)? -/
def listContainsSub (pat : List Char) : List Char → Bool
  | [] => listStartsWith pat []
  | h :: hs => listStartsWith pat (h :: hs) || listContainsSub pat hs

/-- Python `sub in hay` for strings: substring containment. -/
def isSubstrOf (sub hay : String) : Bool :=
  listContainsSub sub.toList hay.toList

/-- `os.path.basename`: everything after the last path separator. -/
def pyBasename (p : String) : String :=
  ((p.toList.splitOn '/').getLastD []).asString

/-- Python `str(n).zfill(2)` for the nonnegative field values used here. -/
def pyZfill2 (s : String) : String :=
  if s.length ≥ 2 then s else ⟨List.replicate (2 - s.length) '0'⟩ ++ s

/-- Python `",".join(items)`. -/
def pyJoinComma (xs : List String) : String :=
  (List.intercalate [','] (xs.map String.toList)).asString

/-- Python `s.split(c)` for a single-character separator. -/
def pySplit (c : Char) (s : String) : List String :=
  (s.toList.splitOn c).map List.asString

/-- Python `s.splitlines()` restricted to `\n` line endings (the only ones
relevant here): no trailing empty line is produced. -/
def pySplitlines (s : String) : List String :=
  if s.isEmpty then []
  else
    let parts := s.toList.splitOn '\n'
    let parts := if s.toList.getLast? = some '\n' then parts.dropLast else parts
    parts.map List.asString

/-- `os.path.join(a, b)` for the cases exercised here (`b` relative). -/
def pyPathJoin (a b : String) : String :=
  if a = "" then b
  else if a.toList.getLast? = some '/' then a ++ b
  else a ++ "/" ++ b

/-! ## file_exists.py -/

/-- `LOCAL_HOST_EQUIVALENTS` (file_exists.py line 35). -/
def LOCAL_HOST_EQUIVALENTS : List String := ["localhost", "127.0.0.1"]

/-- `RSYNC_RETRY_VALUES` (file_exists.py line 36). -/
def RSYNC_RETRY_VALUES : List Int := [0, 23, 24]

/-- The calendar fields of a parsed `isodatetime` timepoint, as used by the
`&Y`/`&m`/... path substitution in `file_exists`. -/
structure TimePointFields where
  year : Nat
  month_of_year : Nat
  day_of_month : Nat
  hour_of_day : Nat
  minute_of_hour : Nat
deriving DecidableEq, Repr

/-- The `path.replace(...)` chain of `file_exists` (lines 110-119), applied
when `parse_timepoint_expression(point)` succeeded. -/
def substituteCyclePoint (path : String) (tp : TimePointFields) : String :=
  ((((((((path.replace "&Y" (toString tp.year)).replace
    "&m" (toString tp.month_of_year)).replace
    "&0m" (pyZfill2 (toString tp.month_of_year))).replace
    "&d" (toString tp.day_of_month)).replace
    "&0d" (pyZfill2 (toString tp.day_of_month))).replace
    "&H" (toString tp.hour_of_day)).replace
    "&0H" (pyZfill2 (toString tp.hour_of_day))).replace
    "&M" (toString tp.minute_of_hour)).replace
    "&0M" (pyZfill2 (toString tp.minute_of_hour))

/-- `get_fully_specified_remote_path` (file_exists.py lines 191-196). -/
def get_fully_specified_remote_path (user : Option String) (host path : String) :
    String :=
  let p := host ++ ":" ++ path
  match user with
  | some u => u ++ "@" ++ p
  | none => p

/-- The ordering used by `sorted(..., key=mtime, reverse=True)`:
newer (larger mtime) first. -/
def mtimeGE (a b : String × Int) : Prop := b.2 ≤ a.2

instance : DecidableRel mtimeGE := fun a b => inferInstanceAs (Decidable (b.2 ≤ a.2))

/-- Python `sorted(l, key=mtime, reverse=True)`: a stable descending sort on
the second (mtime) component (insertion sort is stable, like Python's). -/
def sortPairsByMtimeDesc (l : List (String × Int)) : List (String × Int) :=
  l.insertionSort mtimeGE

/-- The list comprehension inside `_get_glob_results` (file_exists.py
lines 206-208) before sorting: drop candidates older than `check_seconds`
or whose basename occurs in the actioned-file log, keeping glob discovery
order.  Each glob item carries its `os.path.getmtime` value. -/
def globFiltered (glob_items : List (String × Int)) (log_text : String)
    (check_seconds : Int) : List (String × Int) :=
  glob_items.filter
    (fun f => decide (f.2 ≥ check_seconds) && !(isSubstrOf (pyBasename f.1) log_text))

/-- The filtered, newest-first candidate list built inside
`_get_glob_results` (file_exists.py lines 206-209): `globFiltered` sorted
newest first. -/
def globSurvivors (glob_items : List (String × Int)) (log_text : String)
    (check_seconds : Int) : List (String × Int) :=
  sortPairsByMtimeDesc (globFiltered glob_items log_text check_seconds)

/-- `_get_glob_results` (file_exists.py lines 199-214). -/
def get_glob_results (glob_items : List (String × Int)) (log_text : String)
    (check_seconds : Int) : Bool × List String :=
  if glob_items.isEmpty then (false, [])
  else
    let items := (globSurvivors glob_items log_text check_seconds).map Prod.fst
    (!items.isEmpty, items)

/-- One well-formed output line of the rsync listing: the five
whitespace-separated fields `permissions size date time name`
(`_get_filename_and_mtime` unpacks exactly these). -/
structure RsyncLine where
  perms : String
  size : String
  date : String
  time : String
  name : String
deriving DecidableEq, Repr

/-- `_get_filename_and_mtime` (file_exists.py lines 243-249).  `dtSeconds`
models `int(datetime.strptime(d + ' ' + t, '%Y/%m/%d %H:%M:%S').strftime('%s'))`,
the external datetime parse, as a function of the date and time fields. -/
def get_filename_and_mtime (dtSeconds : String → String → Int)
    (line : RsyncLine) (user : Option String) (host path : String) :
    String × String × Int :=
  let f :=
    if path.toList.head? = some '/' && line.name.toList.head? ≠ some '/' then
      "/" ++ line.name
    else line.name
  let fullpath := get_fully_specified_remote_path user host f
  (fullpath, f, dtSeconds line.date line.time)

/-- The filtered triple list of `_get_rsync_results` (file_exists.py
lines 224-233) before sorting. -/
def rsyncSurviving (dtSeconds : String → String → Int)
    (output : List RsyncLine) (log_text : String) (check_seconds : Int)
    (user : Option String) (host path : String) :
    List (String × String × Int) :=
  (output.map (fun l => get_filename_and_mtime dtSeconds l user host path)).filter
    (fun f => decide (f.2.2 ≥ check_seconds)
      && !(isSubstrOf f.2.1 log_text)
      && !(isSubstrOf (pyBasename f.2.1) log_text))

/-- The ordering used by `file_dt.sort(key=lambda x: x[2], reverse=True)`
(file_exists.py line 236): newer (larger mtime, the third component) first. -/
def rsyncGE (a b : String × String × Int) : Prop := b.2.2 ≤ a.2.2

instance : DecidableRel rsyncGE :=
  fun a b => inferInstanceAs (Decidable (b.2.2 ≤ a.2.2))

/-- The surviving rsync candidates sorted newest first (file_exists.py
line 236; Python `list.sort` is stable, like insertion sort). -/
def rsyncSurvivorsSorted (dtSeconds : String → String → Int)
    (output : List RsyncLine) (log_text : String) (check_seconds : Int)
    (user : Option String) (host path : String) :
    List (String × String × Int) :=
  (rsyncSurviving dtSeconds output log_text check_seconds user host
    path).insertionSort rsyncGE

/-- `_get_rsync_results` (file_exists.py lines 217-240). -/
def get_rsync_results (dtSeconds : String → String → Int)
    (output : List RsyncLine) (log_text : String) (check_seconds : Int)
    (user : Option String) (host path : String) : Bool × List String :=
  let file_dt := rsyncSurviving dtSeconds output log_text check_seconds user host path
  if file_dt.isEmpty then (false, [])
  else
    (true, (rsyncSurvivorsSorted dtSeconds output log_text check_seconds
      user host path).map Prod.fst)

/-- The observable world a single `file_exists` call interacts with:
the wall clock, the local glob matches (with their mtimes), the rsync
listing subprocess result, and the datetime parser. -/
structure FsWorld where
  now : Int
  globResults : List (String × Int)
  rsyncRet : Int
  rsyncLines : List RsyncLine
  dtSeconds : String → String → Int

/-- The path template after the cycle-point token substitution of
file_exists.py lines 110-119 (no substitution when the point failed to
parse). -/
def pathAfterSubst (timepoint : Option TimePointFields) (path : String) : String :=
  match timepoint with
  | some tp => substituteCyclePoint path tp
  | none => path

/-- `check_seconds` (file_exists.py lines 124-128): `0` without a
`max_age`, else `time.time()` minus the parsed duration. -/
def checkSeconds (max_age : Option Int) (now : Int) : Int :=
  match max_age with
  | none => 0
  | some secs => now - secs

/-- The final attribute update of `file_exists` (lines 170-176):
`all_paths`/`newest_path`/`oldest_path` are added when `found` and
`success` both hold.  `items` is `none` when the Python local of that
name was never assigned (remote listing failed); an empty list would hit
`items[0]` and raise `IndexError`.  Together with `fe_finish` below this
is the tail of `file_exists` from line 164 on, once `found` and
`results_dict['success']` are settled by lines 150-162. -/
def fe_attrs (results : Dict) (items : Option (List String))
    (success found : Bool) : Except PyErr (Bool × Dict) :=
  if found && success then
    match items with
    | none => Except.error (PyErr.nameError "items")
    | some its =>
      match its.head?, its.getLast? with
      | some newest, some oldest =>
        Except.ok (found,
          dset (dset (dset results "all_paths" (Val.str (pyJoinComma its)))
            "newest_path" (Val.str newest))
            "oldest_path" (Val.str oldest))
      | _, _ => Except.error PyErr.indexError
  else
    Except.ok (found, results)

/-- The `num_expected` dispatch (file_exists.py lines 164-168) feeding
`fe_attrs`; `results` here is the dict before the `success` entry is set
by lines 150-162. -/
def fe_finish (results : Dict) (items : Option (List String))
    (num_expected : Option Nat) (found success : Bool) :
    Except PyErr (Bool × Dict) :=
  match num_expected with
  | some n =>
    if found && success then
      match items with
      | none => Except.error (PyErr.nameError "items")
      | some its =>
        fe_attrs (dset results "success" (Val.bool success)) items success
          (if its.length ≠ n then false else found)
    else fe_attrs (dset results "success" (Val.bool success)) items success found
  | none => fe_attrs (dset results "success" (Val.bool success)) items success found

/-- `file_exists` (file_exists.py lines 40-176), the base checker under the
`xtrig_allow_timeout` decorator.

Inputs standing for external effects:
`timepoint` is the result of `parse_timepoint_expression(point)` (`none`
models the `ISO8601SyntaxError` branch); `max_age` is the parsed duration
in seconds when the `max_age` argument was given; `actioned_log` is the
content of `actioned_file_log` when the argument was given and the file
exists, else `none`.

The Python locals `ret` and `items` are assigned on some branches only;
a reference to them on a branch that never assigned them raises
`NameError`, modelled by carrying them as `Option` and throwing. -/
def file_exists (user : Option String) (host : String) (path : String)
    (timepoint : Option TimePointFields) (max_age : Option Int)
    (actioned_log : Option String) (num_expected : Option Nat)
    (strict_retry : Bool) (w : FsWorld) : Except PyErr (Bool × Dict) :=
  let path := pathAfterSubst timepoint path
  let results : Dict := [("host", Val.str host), ("path", Val.str path)]
  let check_seconds : Int := checkSeconds max_age w.now
  let log_text := actioned_log.getD ""
  -- lines 137-148: local glob or remote rsync listing.  `ret` stays unbound
  -- in local mode; `items` stays unbound when the rsync listing fails.
  let step1 : Bool × Option (List String) × Option Int :=
    if host ∈ LOCAL_HOST_EQUIVALENTS then
      let r := get_glob_results w.globResults log_text check_seconds
      (r.1, some r.2, none)
    else
      if w.rsyncRet = 0 then
        let r := get_rsync_results w.dtSeconds w.rsyncLines log_text check_seconds
          user host path
        (r.1, some r.2, some w.rsyncRet)
      else
        (false, none, some w.rsyncRet)
  let found := step1.1
  let items := step1.2.1
  let ret := step1.2.2
  -- lines 150-162, continuing into `fe_finish` for lines 164-176
  if !strict_retry then
    fe_finish results items num_expected found found
  else if found then
    fe_finish results items num_expected found true
  else
    match ret with
    | none => Except.error (PyErr.nameError "ret")
    | some r =>
      if r ∈ RSYNC_RETRY_VALUES then fe_finish results items num_expected found false
      else fe_finish results items num_expected true false

/-- The surviving candidates of one `file_exists` call, as `(path, mtime)`
pairs in discovery order (glob order locally, listing-line order remotely),
before the newest-first sort.  Meaningful in remote mode only when the
listing succeeded (`rsyncRet = 0`). -/
def feCandidatesUnsorted (user : Option String) (host path : String)
    (tp : Option TimePointFields) (maxa : Option Int) (alog : Option String)
    (w : FsWorld) : List (String × Int) :=
  if host ∈ LOCAL_HOST_EQUIVALENTS then
    globFiltered w.globResults (alog.getD "") (checkSeconds maxa w.now)
  else
    (rsyncSurviving w.dtSeconds w.rsyncLines (alog.getD "")
      (checkSeconds maxa w.now) user host (pathAfterSubst tp path)).map
      (fun t => (t.1, t.2.2))

/-- The surviving candidates of one `file_exists` call, as `(path, mtime)`
pairs sorted newest first — the list whose `path` components become the
call's `items` (remote paths are the fully specified `user@host:path`
form).  Meaningful in remote mode only when the listing succeeded. -/
def feSurvivors (user : Option String) (host path : String)
    (tp : Option TimePointFields) (maxa : Option Int) (alog : Option String)
    (w : FsWorld) : List (String × Int) :=
  if host ∈ LOCAL_HOST_EQUIVALENTS then
    globSurvivors w.globResults (alog.getD "") (checkSeconds maxa w.now)
  else
    (rsyncSurvivorsSorted w.dtSeconds w.rsyncLines (alog.getD "")
      (checkSeconds maxa w.now) user host (pathAfterSubst tp path)).map
      (fun t => (t.1, t.2.2))

/-! ## file_contains.py -/

/-- Look up a dict entry expected to hold a Bool (Python `d[k]` raising
`KeyError` when absent; all stored `success` values are booleans). -/
def dgetBool (d : Dict) (k : String) : Except PyErr Bool :=
  match dget d k with
  | some (Val.bool b) => Except.ok b
  | _ => Except.error (PyErr.keyError k)

/-- Look up a dict entry expected to hold a string. -/
def dgetStr (d : Dict) (k : String) : Except PyErr String :=
  match dget d k with
  | some (Val.str s) => Except.ok s
  | _ => Except.error (PyErr.keyError k)

/-- `file_contains` (file_contains.py lines 34-123), the base checker under
the `xtrig_allow_timeout` decorator.

Inputs standing for external effects: `feResult` is the value of the call
`file_exists.file_exists(path=..., user=..., host=..., point=...,
strict_retry=...)` at line 84 (the module attribute is the decorated
function, so this is the wrapped checker's result); `readData` is the text
obtained from the located file (local `open(...).read()` or the rsync copy
of `_get_remote_file_contents`); `reSearch` models `re.search`, returning
the first match's matched text.

The Python local `result` is assigned in the regex branch only when a match
was found; the dict display at line 107 references it unconditionally,
raising `NameError` when it is unbound.  This is modelled by carrying it as
an `Option` and throwing. -/
def file_contains (text : String) (regex : Bool) (host : String)
    (min_num_lines : Option Nat) (strict_retry : Bool)
    (feResult : Except PyErr (Bool × Dict)) (readData : String)
    (reSearch : String → String → Option String) :
    Except PyErr (Bool × Dict) :=
  match feResult with
  | Except.error e => Except.error e
  | Except.ok (file_status, file_results) =>
    -- line 88: `if file_status and file_results['success']:` (short-circuit
    -- `and`, so the success lookup happens only when file_status is true)
    match (if file_status then dgetBool file_results "success"
           else Except.ok false) with
    | Except.error e => Except.error e
    | Except.ok cond1 =>
      if cond1 then
        match dgetStr file_results "path" with
        | Except.error e => Except.error e
        | Except.ok path =>
          let data := readData
          -- lines 98-106: the local `result` stays unbound when the regex
          -- search found no match
          let satResult : Bool × Option String :=
            if regex then
              match reSearch text data with
              | some m => (true, some m)
              | none => (false, none)
            else
              (isSubstrOf text data, some text)
          match satResult.2 with
          | none => Except.error (PyErr.nameError "result")
          | some result =>
            let response : Dict :=
              [("text", Val.str result), ("path", Val.str path),
               ("host", Val.str host)]
            -- lines 109-110
            let satisfied :=
              match min_num_lines with
              | some n => satResult.1 && decide ((pySplitlines data).length ≥ n)
              | none => satResult.1
            Except.ok (satisfied, dset response "success" (Val.bool satisfied))
      else
        -- line 114:
        -- `elif strict_retry and file_status and not file_results['success']:`
        match (if strict_retry && file_status then
                match dgetBool file_results "success" with
                | Except.error e => Except.error e
                | Except.ok b => Except.ok (!b)
              else Except.ok false) with
        | Except.error e => Except.error e
        | Except.ok strictCase =>
          if strictCase then
            Except.ok (true, dset [] "success" (Val.bool false))
          else
            Except.ok (false, dset [] "success" (Val.bool false))

/-! ## require_previous.py -/

/-- One row of the external state store's `task_states` table. -/
structure StoreRow where
  name : String
  cycle : String
  status : String
deriving DecidableEq, Repr

/-- The external per-workflow state store once a connection succeeded:
its `task_states` rows and the value of
`checker.get_remote_point_format()`. -/
structure Store where
  rows : List StoreRow
  remotePointFormat : Option String
deriving Repr

/-- The leading decimal digits of a character list. -/
def leadingDigits : List Char → List Char
  | [] => []
  | c :: cs => if c.isDigit then c :: leadingDigits cs else []

/-- Numeric value of a digit list. -/
def digitsVal (ds : List Char) : Int :=
  ds.foldl (fun a c => a * 10 + (Int.ofNat c.toNat - Int.ofNat '0'.toNat)) 0

/-- SQLite `CAST(s AS int)`: the integer prefix of the text (optional sign
followed by digits), `0` when there is none. -/
def sqliteCastInt (s : String) : Int :=
  match s.toList with
  | '-' :: rest => -(digitsVal (leadingDigits rest))
  | '+' :: rest => digitsVal (leadingDigits rest)
  | l => digitsVal (leadingDigits l)

/-- Python `s.isdigit()` for ASCII text: nonempty and all digits. -/
def pyIsdigit (s : String) : Bool :=
  !s.isEmpty && s.toList.all Char.isDigit

/-- Modelled from the spec: `CylcSuiteDBChecker.task_state_met` of the
external `cylc.dbstatecheck` collaborator (not under src/) — "require that
each of those (at most two) cycle points has the task in the required
status": true iff the store has the task at that cycle in that status. -/
def task_state_met (st : Store) (task cycle status : String) : Bool :=
  st.rows.any (fun r => r.name == task && r.cycle == cycle && r.status == status)

/-- The WHERE clause of the `previous_finished` query on one row
(require_previous.py lines 41-61), after the row was matched on `name`:
for an all-digit point, `CAST(cycle AS int) < CAST(point AS int)`; else
`CAST(cycle AS int) <= CAST(point AS int) AND cycle < point`. -/
def priorCyclePred (point cycle : String) : Bool :=
  if pyIsdigit point then
    decide (sqliteCastInt cycle < sqliteCastInt point)
  else
    decide (sqliteCastInt cycle ≤ sqliteCastInt point) && decide (cycle < point)

/-- The cycle points returned by the `previous_finished` query
(require_previous.py lines 41-64): rows of the named task whose cycle is
prior to `point`, ordered by descending `CAST(cycle AS int)` (and, for
non-digit points, by descending raw cycle as tie-break), limited to 2. -/
def priorCycles (st : Store) (point task : String) : List String :=
  let cycles := (st.rows.filter
    (fun r => r.name == task && priorCyclePred point r.cycle)).map StoreRow.cycle
  let sorted :=
    if pyIsdigit point then
      cycles.insertionSort (fun a b => sqliteCastInt b ≤ sqliteCastInt a)
    else
      cycles.insertionSort (fun a b =>
        sqliteCastInt b < sqliteCastInt a
          ∨ (sqliteCastInt b = sqliteCastInt a ∧ (b < a ∨ b = a)))
  sorted.take 2

/-- `previous_finished` (require_previous.py lines 25-71).

`store` is `none` when constructing `CylcSuiteDBChecker` raised
`OSError`/`sqlite3.Error` (the target suite is not started or the store is
corrupt); `reparse` models the external
`str(TimePointParser().parse(point, dump_format=fmt))` call used when the
store reports a remote point format.  `suite` and `share_dir` only feed the
store connection and are kept for signature fidelity. -/
def previous_finished (store : Option Store)
    (reparse : String → String → String) (suite share_dir : String)
    (point dependent_task required_status : String) : Bool :=
  match store with
  | none => false
  | some st =>
    let point :=
      match st.remotePointFormat with
      | some fmt => reparse point fmt
      | none => point
    (priorCycles st point dependent_task).all
      (fun cp => task_state_met st dependent_task cp required_status)

/-! ## timeout_handler.py -/

/-- Modelled from the spec: `wall_clock(offset, point_as_seconds)` of the
external `cylc.xtriggers.wall_clock` collaborator (not under src/) — the
WallClockPredicate contract "`elapsed(point_as_seconds, offset) -> bool`",
"true iff `now >= point_as_seconds + offset`".  Durations are taken in
seconds. -/
def wall_clock (now offset point_as_seconds : Int) : Bool :=
  decide (point_as_seconds + offset ≤ now)

/-- `TimeoutHandler` (timeout_handler.py lines 149-236).  The duration
arguments are taken as parsed seconds. -/
structure TimeoutHandler where
  point : String
  tmpdir : String
  tmpfile : String
  delay_first_poll_until : Option Int
  timeout_first_run : Option Int
  timeout_cycle_offset : Option Int
deriving DecidableEq, Repr

/-- `TimeoutHandler.__init__` (timeout_handler.py lines 156-200).
`parent` is `inspect.currentframe().f_back.f_code.co_name`, the
compile-time name of the code object of the calling frame.
`dependent_task` is the string formatted into the marker name
(`str(None)` is `"None"` when the kwarg was absent). -/
def mkTimeoutHandler (parent point dependent_task suite_share_dir : String)
    (delay_first_poll_until timeout_first_run timeout_cycle_offset : Option Int) :
    TimeoutHandler :=
  let tmpdir := pyPathJoin suite_share_dir "data"
  { point := point
    tmpdir := tmpdir
    tmpfile := pyPathJoin tmpdir
      ("xtrigger." ++ parent ++ "." ++ dependent_task ++ "." ++ point)
    delay_first_poll_until := delay_first_poll_until
    timeout_first_run := timeout_first_run
    timeout_cycle_offset := timeout_cycle_offset }

/-- `TimeoutHandler.has_start_timeout_expired` (timeout_handler.py
lines 202-209).  `pointAsSeconds` models the external
`get_point_as_seconds` conversion (isodatetime parse plus local-UTC-offset
correction for zone-less points). -/
def TimeoutHandler.has_start_timeout_expired (h : TimeoutHandler) (now : Int)
    (pointAsSeconds : String → Int) : Bool :=
  match h.delay_first_poll_until with
  | none => true
  | some offset => wall_clock now offset (pointAsSeconds h.point)

/-- `TimeoutHandler.has_timeout_expired` (timeout_handler.py lines 211-232).
`marker` is the filesystem state of `self.tmpfile`: `some t` when the
marker file exists with mtime `t`, `none` when it does not.  A lazily
created marker gets mtime `now`.  Returns the result together with the new
marker state. -/
def TimeoutHandler.has_timeout_expired (h : TimeoutHandler) (now : Int)
    (pointAsSeconds : String → Int) (marker : Option Int) (found : Bool) :
    Bool × Option Int :=
  if found then (true, marker)
  else
    match h.timeout_first_run with
    | some offset =>
      let start_time :=
        match marker with
        | none => now
        | some m => m
      (wall_clock now offset start_time, some start_time)
    | none =>
      match h.timeout_cycle_offset with
      | some offset => (wall_clock now offset (pointAsSeconds h.point), marker)
      | none => (found, marker)

/-- `TimeoutHandler.cleanup` (timeout_handler.py lines 234-236): remove the
marker file when the final result is true. -/
def TimeoutHandler.cleanup (h : TimeoutHandler) (found : Bool)
    (marker : Option Int) : Option Int :=
  if found && marker.isSome then none else marker

/-- The code-object name of the frame that constructs the `TimeoutHandler`
inside the decorator: the inner wrapper function `handle`
(timeout_handler.py line 92).  `functools.wraps` copies `__name__` onto the
wrapper function object but does not rename its code object, so
`f_back.f_code.co_name` at line 189 is `"handle"` for every wrapped
checker. -/
def WRAPPER_CO_NAME : String := "handle"

/-- The external collaborators one wrapped call observes: the wall clock,
the point-to-seconds conversion, the previous-cycle state store (for the
suite named by the call) and the point reformatting parser. -/
structure CallEnv where
  now : Int
  pointAsSeconds : String → Int
  store : Option Store
  reparse : String → String → String

/-- One invocation of the decorator's wrapper `handle`
(timeout_handler.py lines 92-138) for a wrapped checker.

`baseResult` stands for `func(*args, **kwargs)`, the base checker's result
(an `Except`, since the base checkers can raise); `cache` is the current
value of the function attribute `handle.handler` (`none` before any call);
`marker` is the marker-file state for the handler's `tmpfile` path.

Returns the call's result together with the new `handle.handler` and the
new marker state.  Note the code never resets `handle.handler` to `None`,
and assigns it (line 115) before the gate checks (line 124). -/
def taskStrOf : Option String → String
  | some t => t
  | none => "None"

/-- The gate condition of the wrapper (timeout_handler.py lines 124-130):
start delay unexpired, or a required previous-cycle status configured (with
a non-`None` dependent task) but unmet. -/
def xtrig_gate (env : CallEnv) (h : TimeoutHandler)
    (suite suite_share_dir point : String) (dependent_task : Option String)
    (required_previous_status : Option String) : Bool :=
  !(h.has_start_timeout_expired env.now env.pointAsSeconds)
    || (match required_previous_status, dependent_task with
        | some status, some task =>
          !(previous_finished env.store env.reparse suite suite_share_dir
            point task status)
        | _, _ => false)

def xtrig_handle (env : CallEnv) (suite point : String)
    (dependent_task : Option String) (suite_share_dir : String)
    (delay_first_poll_until timeout_first_run timeout_cycle_offset : Option Int)
    (required_previous_status : Option String)
    (baseResult : Except PyErr (Bool × Dict))
    (cache : Option TimeoutHandler) (marker : Option Int) :
    Except PyErr (Bool × Dict) × Option TimeoutHandler × Option Int :=
  match cache with
  | some _ =>
    -- line 93: a parent method is handling the timeout
    (baseResult, cache, marker)
  | none =>
    -- line 115: the handler attribute is assigned before the gate checks,
    -- with `str(None)` formatted in when the task kwarg was absent
    let h := mkTimeoutHandler WRAPPER_CO_NAME point (taskStrOf dependent_task)
      suite_share_dir delay_first_poll_until timeout_first_run
      timeout_cycle_offset
    if xtrig_gate env h suite suite_share_dir point dependent_task
        required_previous_status then
      (Except.ok (false, []), some h, marker)
    else
      match baseResult with
      | Except.error e => (Except.error e, some h, marker)
      | Except.ok sr =>
        let r := h.has_timeout_expired env.now env.pointAsSeconds marker sr.1
        (Except.ok (r.1, sr.2), some h, h.cleanup r.1 r.2)

/-- Two successive external invocations of the same wrapped checker in one
process: the second call receives the `handle.handler` attribute and the
marker state left by the first. -/
def xtrig_handle_twice (env1 env2 : CallEnv) (suite point : String)
    (dependent_task : Option String) (suite_share_dir : String)
    (delay_first_poll_until timeout_first_run timeout_cycle_offset : Option Int)
    (required_previous_status : Option String)
    (base1 base2 : Except PyErr (Bool × Dict)) :
    (Except PyErr (Bool × Dict) × Option TimeoutHandler × Option Int)
      × (Except PyErr (Bool × Dict) × Option TimeoutHandler × Option Int) :=
  let r1 := xtrig_handle env1 suite point dependent_task suite_share_dir
    delay_first_poll_until timeout_first_run timeout_cycle_offset
    required_previous_status base1 none none
  let r2 := xtrig_handle env2 suite point dependent_task suite_share_dir
    delay_first_poll_until timeout_first_run timeout_cycle_offset
    required_previous_status base2 r1.2.1 r1.2.2
  (r1, r2)

/-! ## suite_state_plus.py -/

/-- `suite_state_plus` (suite_state_plus.py lines 33-66), the base checker
under the decorator.  `ssResult` stands for the external
`suite_state(...)` call's `(satisfied, results)` value. -/
def suite_state_plus (ssResult : Bool × Dict) : Bool × Dict :=
  (ssResult.1, dset ssResult.2 "success" (Val.bool ssResult.1))

/-! ## Sample data for concrete evaluations -/

/-- A constant point-to-seconds conversion, for concrete runs. -/
def pasZero : String → Int := fun _ => 0

/-- Point reformatting that keeps the point unchanged. -/
def reparseId : String → String → String := fun p _ => p

/-- A local world with three glob matches of distinct mtimes. -/
def sampleWorld : FsWorld :=
  { now := 100, globResults := [("/a", 5), ("/b", 7), ("/c", 6)], rsyncRet := 0,
    rsyncLines := [], dtSeconds := fun _ _ => 0 }

/-- A local world with no glob matches. -/
def emptyLocalWorld : FsWorld :=
  { now := 0, globResults := [], rsyncRet := 0, rsyncLines := [],
    dtSeconds := fun _ _ => 0 }

/-- A remote world whose listing command exited with the given code. -/
def remoteWorld (ret : Int) : FsWorld :=
  { now := 0, globResults := [], rsyncRet := ret, rsyncLines := [],
    dtSeconds := fun _ _ => 0 }

/-- A remote world whose listing succeeded with two lines (mtimes 5
and 7). -/
def listedWorld : FsWorld :=
  { now := 100, globResults := [], rsyncRet := 0,
    rsyncLines := [⟨"-rw-", "5", "2024/01/01", "00:00:01", "/a"⟩,
                   ⟨"-rw-", "5", "2024/01/02", "00:00:02", "/b"⟩],
    dtSeconds := fun _ t => if t == "00:00:01" then 5 else 7 }

/-- A local world with two glob matches of equal mtime. -/
def tieWorld : FsWorld :=
  { now := 100, globResults := [("a", 5), ("b", 5)], rsyncRet := 0,
    rsyncLines := [], dtSeconds := fun _ _ => 0 }

/-- A local world whose single glob match has a comma in its name. -/
def commaWorld : FsWorld :=
  { now := 100, globResults := [("a,b", 5)], rsyncRet := 0,
    rsyncLines := [], dtSeconds := fun _ _ => 0 }

/-- A state store with cycles `3, 2, 1` for task `bar`, succeeded at
`2` and `1`. -/
def sampleStore : Store :=
  { rows := [⟨"bar", "3", "running"⟩, ⟨"bar", "2", "succeeded"⟩,
             ⟨"bar", "1", "succeeded"⟩],
    remotePointFormat := none }

/-- A call environment at wall-clock time `t` with no reachable state
store. -/
def envAt (t : Int) : CallEnv :=
  { now := t, pointAsSeconds := fun _ => 0, store := none,
    reparse := fun p _ => p }

/-- A base-checker result: condition not met, `success` false. -/
def baseNotFound : Except PyErr (Bool × Dict) :=
  Except.ok (false, [("success", Val.bool false)])

/-! ## Dictionary lemmas -/

theorem find?_map_replace (d : Dict) (k kw : String) (v : Val) (hk : kw ≠ k) :
    (d.map (fun p => if p.1 == kw then (kw, v) else p)).find?
        (fun p => p.1 == k)
      = d.find? (fun p => p.1 == k) := by
  induction d with
  | nil => rfl
  | cons p tl ih =>
    rw [List.map_cons]
    by_cases hp : p.1 = kw
    · rw [if_pos (by simpa using hp)]
      rw [List.find?_cons_of_neg _ (by simpa using hk),
        List.find?_cons_of_neg _ (by simp [hp, hk]), ih]
    · rw [if_neg (by simpa using hp)]
      by_cases hpk : p.1 = k
      · rw [List.find?_cons_of_pos _ (by simpa using hpk),
          List.find?_cons_of_pos _ (by simpa using hpk)]
      · rw [List.find?_cons_of_neg _ (by simpa using hpk),
          List.find?_cons_of_neg _ (by simpa using hpk), ih]

theorem dget_dset_self (d : Dict) (k : String) (v : Val) :
    dget (dset d k v) k = some v := by
  unfold dset dget
  by_cases h : d.any (fun p => p.1 == k)
  · rw [if_pos h]
    induction d with
    | nil => simp at h
    | cons p tl ih =>
      rw [List.any_cons] at h
      rw [List.map_cons]
      by_cases hp : p.1 = k
      · rw [if_pos (by simpa using hp)]
        rw [List.find?_cons_of_pos _ (by simp)]
        rfl
      · rw [if_neg (by simpa using hp)]
        rw [List.find?_cons_of_neg _ (by simpa using hp)]
        refine ih ?_
        have hne : ¬ (p.1 == k) = true := by simpa using hp
        rcases Bool.or_eq_true_iff.mp h with h1 | h1
        · exact absurd h1 hne
        · exact h1
  · rw [if_neg h]
    have hfd : d.find? (fun p => p.1 == k) = none := by
      rw [List.find?_eq_none]
      intro p hp hkp
      rw [Bool.not_eq_true] at h
      have := List.any_eq_false.mp h p hp
      exact this hkp
    rw [List.find?_append, hfd, List.find?_cons_of_pos _ (by simp)]
    rfl

theorem dget_dset_ne (d : Dict) (k kw : String) (v : Val) (hk : kw ≠ k) :
    dget (dset d kw v) k = dget d k := by
  unfold dset dget
  by_cases h : d.any (fun p => p.1 == kw)
  · rw [if_pos h, find?_map_replace d k kw v hk]
  · rw [if_neg h, List.find?_append]
    have hsingle : [(kw, v)].find? (fun p => p.1 == k) = none := by
      rw [List.find?_cons_of_neg _ (by simpa using hk)]
      rfl
    rw [hsingle, Option.or_none]

/-! ## Join/split and sorting lemmas -/

theorem pySplit_pyJoinComma (xs : List String) (hne : xs ≠ [])
    (hc : ∀ x ∈ xs, ¬ (',' ∈ x.toList)) :
    pySplit ',' (pyJoinComma xs) = xs := by
  unfold pySplit pyJoinComma
  rw [List.toList_asString]
  rw [List.splitOn_intercalate (xs.map String.toList) ','
    (by
      intro l hl
      obtain ⟨x, hx, rfl⟩ := List.mem_map.mp hl
      exact hc x hx)
    (by simpa using hne)]
  rw [List.map_map]
  have : (List.asString ∘ String.toList) = id :=
    funext fun s => String.asString_toList s
  rw [this, List.map_id]

instance : IsTotal (String × Int) mtimeGE :=
  ⟨fun a b => le_total b.2 a.2⟩

instance : IsTrans (String × Int) mtimeGE :=
  ⟨fun _ _ _ h1 h2 => le_trans h2 h1⟩

theorem pairwise_sortPairsByMtimeDesc (l : List (String × Int)) :
    (sortPairsByMtimeDesc l).Pairwise mtimeGE :=
  List.sorted_insertionSort mtimeGE l

theorem pairwise_globSurvivors (g : List (String × Int)) (lt : String)
    (cs : Int) : (globSurvivors g lt cs).Pairwise mtimeGE :=
  pairwise_sortPairsByMtimeDesc _

instance : IsTotal (String × String × Int) rsyncGE :=
  ⟨fun a b => le_total b.2.2 a.2.2⟩

instance : IsTrans (String × String × Int) rsyncGE :=
  ⟨fun _ _ _ h1 h2 => le_trans h2 h1⟩

theorem pairwise_rsyncSurvivorsSorted (dtS : String → String → Int)
    (out : List RsyncLine) (lt : String) (cs : Int) (user : Option String)
    (host path : String) :
    (rsyncSurvivorsSorted dtS out lt cs user host path).Pairwise rsyncGE :=
  List.sorted_insertionSort rsyncGE _

theorem pairwise_feSurvivors (user : Option String) (host path : String)
    (tp : Option TimePointFields) (maxa : Option Int) (alog : Option String)
    (w : FsWorld) :
    (feSurvivors user host path tp maxa alog w).Pairwise mtimeGE := by
  unfold feSurvivors
  by_cases hh : host ∈ LOCAL_HOST_EQUIVALENTS
  · rw [if_pos hh]
    exact pairwise_globSurvivors _ _ _
  · rw [if_neg hh]
    exact List.Pairwise.map _ (fun a b h => h)
      (pairwise_rsyncSurvivorsSorted _ _ _ _ _ _ _)

/-! ## Stability of the newest-first sorts

Python's `sorted`/`list.sort` are stable; the insertion sorts used in the
embedding are stable in the same sense.  Stability is stated per key
value: for every mtime `m`, the sorted list restricted to candidates of
mtime `m` equals the unsorted (discovery-order) list restricted to them. -/

theorem filter_orderedInsert_key {α : Type} (k : α → Int)
    (r : α → α → Prop) [DecidableRel r] (hr : ∀ a b, r a b ↔ k b ≤ k a)
    (m : Int) (a : α) (L : List α) :
    (L.orderedInsert r a).filter (fun x => k x == m)
      = if k a == m then a :: L.filter (fun x => k x == m)
        else L.filter (fun x => k x == m) := by
  induction L with
  | nil =>
    by_cases ham : k a = m <;> simp [List.orderedInsert, ham]
  | cons y L ih =>
    rw [List.orderedInsert]
    by_cases hray : r a y
    · rw [if_pos hray]
      by_cases ham : k a = m <;> simp [List.filter_cons, ham]
    · rw [if_neg hray]
      by_cases hym : k y = m
      · by_cases ham : k a = m
        · exfalso
          rw [hr] at hray
          rw [ham, hym] at hray
          exact hray le_rfl
        · simp [List.filter_cons, hym, ham, ih]
      · by_cases ham : k a = m <;> simp [List.filter_cons, hym, ham, ih]

theorem insertionSort_filter_key {α : Type} (k : α → Int)
    (r : α → α → Prop) [DecidableRel r] (hr : ∀ a b, r a b ↔ k b ≤ k a)
    (m : Int) (l : List α) :
    (l.insertionSort r).filter (fun x => k x == m)
      = l.filter (fun x => k x == m) := by
  induction l with
  | nil => rfl
  | cons a l ih =>
    rw [List.insertionSort, filter_orderedInsert_key k r hr m a _, ih]
    by_cases ham : k a = m <;> simp [List.filter_cons, ham]

theorem sortPairs_filter_mtime (l : List (String × Int)) (m : Int) :
    (sortPairsByMtimeDesc l).filter (fun p => p.2 == m)
      = l.filter (fun p => p.2 == m) :=
  insertionSort_filter_key Prod.snd mtimeGE (fun _ _ => Iff.rfl) m l

theorem rsyncSort_filter_mtime (l : List (String × String × Int)) (m : Int) :
    (l.insertionSort rsyncGE).filter (fun t => t.2.2 == m)
      = l.filter (fun t => t.2.2 == m) :=
  insertionSort_filter_key (fun t : String × String × Int => t.2.2) rsyncGE
    (fun _ _ => Iff.rfl) m l

theorem filter_map_pairOfTriple (L : List (String × String × Int)) (m : Int) :
    ((L.map (fun t => (t.1, t.2.2))).filter (fun p => p.2 == m))
      = (L.filter (fun t => t.2.2 == m)).map (fun t => (t.1, t.2.2)) := by
  induction L with
  | nil => rfl
  | cons t L ihL =>
    by_cases htm : t.2.2 = m <;> simp [List.filter_cons, htm, ihL]

theorem feSurvivors_filter_mtime (user : Option String) (host path : String)
    (tp : Option TimePointFields) (maxa : Option Int) (alog : Option String)
    (w : FsWorld) (m : Int) :
    (feSurvivors user host path tp maxa alog w).filter (fun p => p.2 == m)
      = (feCandidatesUnsorted user host path tp maxa alog w).filter
          (fun p => p.2 == m) := by
  unfold feSurvivors feCandidatesUnsorted
  by_cases hh : host ∈ LOCAL_HOST_EQUIVALENTS
  · rw [if_pos hh, if_pos hh]
    exact sortPairs_filter_mtime _ m
  · rw [if_neg hh, if_neg hh, filter_map_pairOfTriple, filter_map_pairOfTriple]
    unfold rsyncSurvivorsSorted
    rw [rsyncSort_filter_mtime]

/-! ## fe_finish evaluation lemmas -/

theorem fe_finish_success_false (results : Dict) (items : Option (List String))
    (ne : Option Nat) (found : Bool) :
    fe_finish results items ne found false
      = Except.ok (found, dset results "success" (Val.bool false)) := by
  unfold fe_finish
  cases ne <;> simp [fe_attrs]

theorem fe_finish_num_mismatch (results : Dict) (its : List String) (n : Nat)
    (hn : its.length ≠ n) :
    fe_finish results (some its) (some n) true true
      = Except.ok (false, dset results "success" (Val.bool true)) := by
  unfold fe_finish
  simp [fe_attrs, hn]

theorem fe_finish_found (results : Dict) (its : List String)
    (ne : Option Nat) (hne0 : ne = none ∨ ne = some its.length)
    (nw ol : String) (hnw : its.head? = some nw) (hol : its.getLast? = some ol) :
    fe_finish results (some its) ne true true
      = Except.ok (true,
          dset (dset (dset (dset results "success" (Val.bool true))
            "all_paths" (Val.str (pyJoinComma its)))
            "newest_path" (Val.str nw))
            "oldest_path" (Val.str ol)) := by
  unfold fe_finish
  rcases hne0 with rfl | rfl
  · simp [fe_attrs, hnw, hol]
  · simp [fe_attrs, hnw, hol]

theorem fe_finish_map_fst (results : Dict) (its : List String)
    (ne : Option Nat) (hits : its ≠ []) :
    (fe_finish results (some its) ne true true).map Prod.fst
      = Except.ok (ne.all (fun n => its.length == n)) := by
  obtain ⟨nw, hnw⟩ : ∃ nw, its.head? = some nw := by
    cases its with
    | nil => exact absurd rfl hits
    | cons a l => exact ⟨a, rfl⟩
  obtain ⟨ol, hol⟩ : ∃ ol, its.getLast? = some ol := by
    cases h : its.getLast? with
    | none => exact absurd (List.getLast?_eq_none_iff.mp h) hits
    | some x => exact ⟨x, rfl⟩
  cases ne with
  | none =>
    rw [fe_finish_found results its none (Or.inl rfl) nw ol hnw hol]
    rfl
  | some n =>
    by_cases hn : its.length = n
    · rw [fe_finish_found results its (some n) (Or.inr (by rw [hn])) nw ol hnw hol]
      simp [Except.map, Option.all, hn]
    · rw [fe_finish_num_mismatch results its n hn]
      simp [Except.map, Option.all, hn]

/-! ## file_exists evaluation lemmas -/

theorem file_exists_local_eval (user : Option String) (host path : String)
    (tp : Option TimePointFields) (maxa : Option Int) (alog : Option String)
    (ne : Option Nat) (strict : Bool) (w : FsWorld)
    (hhost : host ∈ LOCAL_HOST_EQUIVALENTS)
    (S : List (String × Int))
    (hS : S = globSurvivors w.globResults (alog.getD "") (checkSeconds maxa w.now))
    (hne : S ≠ []) :
    file_exists user host path tp maxa alog ne strict w
      = fe_finish [("host", Val.str host), ("path", Val.str (pathAfterSubst tp path))]
          (some (S.map Prod.fst)) ne true true := by
  have hglob : w.globResults.isEmpty = false := by
    cases hg : w.globResults with
    | nil =>
      exfalso
      apply hne
      rw [hS, hg]
      rfl
    | cons a l => rfl
  have hmapne : S.map Prod.fst ≠ [] := by
    intro h
    exact hne (List.map_eq_nil_iff.mp h)
  have hitems : (S.map Prod.fst).isEmpty = false := by
    cases hι : S.map Prod.fst with
    | nil => exact absurd hι hmapne
    | cons a l => rfl
  cases strict
  · simp [file_exists, get_glob_results, hhost, hglob, ← hS, hitems]
  · simp [file_exists, get_glob_results, hhost, hglob, ← hS, hitems]

theorem file_exists_remote_eval (user : Option String) (host path : String)
    (tp : Option TimePointFields) (maxa : Option Int) (alog : Option String)
    (ne : Option Nat) (strict : Bool) (w : FsWorld)
    (hhost : host ∉ LOCAL_HOST_EQUIVALENTS) (hret : w.rsyncRet = 0)
    (R : List (String × String × Int))
    (hR : R = rsyncSurvivorsSorted w.dtSeconds w.rsyncLines (alog.getD "")
      (checkSeconds maxa w.now) user host (pathAfterSubst tp path))
    (hne : R ≠ []) :
    file_exists user host path tp maxa alog ne strict w
      = fe_finish [("host", Val.str host), ("path", Val.str (pathAfterSubst tp path))]
          (some (R.map Prod.fst)) ne true true := by
  have hfil : (rsyncSurviving w.dtSeconds w.rsyncLines (alog.getD "")
      (checkSeconds maxa w.now) user host (pathAfterSubst tp path)).isEmpty
        = false := by
    cases hs : rsyncSurviving w.dtSeconds w.rsyncLines (alog.getD "")
        (checkSeconds maxa w.now) user host (pathAfterSubst tp path) with
    | nil =>
      exfalso
      apply hne
      rw [hR]
      unfold rsyncSurvivorsSorted
      rw [hs]
      rfl
    | cons a l => rfl
  cases strict
  · simp [file_exists, get_rsync_results, hhost, hret, ← hR, hfil]
  · simp [file_exists, get_rsync_results, hhost, hret, ← hR, hfil]

theorem file_exists_eval (user : Option String) (host path : String)
    (tp : Option TimePointFields) (maxa : Option Int) (alog : Option String)
    (ne : Option Nat) (strict : Bool) (w : FsWorld)
    (hmode : host ∈ LOCAL_HOST_EQUIVALENTS ∨ w.rsyncRet = 0)
    (S : List (String × Int))
    (hS : S = feSurvivors user host path tp maxa alog w)
    (hne : S ≠ []) :
    file_exists user host path tp maxa alog ne strict w
      = fe_finish [("host", Val.str host), ("path", Val.str (pathAfterSubst tp path))]
          (some (S.map Prod.fst)) ne true true := by
  by_cases hh : host ∈ LOCAL_HOST_EQUIVALENTS
  · have hS' : S = globSurvivors w.globResults (alog.getD "")
        (checkSeconds maxa w.now) := by
      rw [hS]
      unfold feSurvivors
      rw [if_pos hh]
    exact file_exists_local_eval user host path tp maxa alog ne strict w hh
      S hS' hne
  · have hret : w.rsyncRet = 0 := hmode.resolve_left hh
    have hS' : S = (rsyncSurvivorsSorted w.dtSeconds w.rsyncLines (alog.getD "")
        (checkSeconds maxa w.now) user host (pathAfterSubst tp path)).map
        (fun t => (t.1, t.2.2)) := by
      rw [hS]
      unfold feSurvivors
      rw [if_neg hh]
    have hRne : rsyncSurvivorsSorted w.dtSeconds w.rsyncLines (alog.getD "")
        (checkSeconds maxa w.now) user host (pathAfterSubst tp path) ≠ [] := by
      intro h0
      apply hne
      rw [hS', h0]
      rfl
    have hmap : S.map Prod.fst
        = (rsyncSurvivorsSorted w.dtSeconds w.rsyncLines (alog.getD "")
          (checkSeconds maxa w.now) user host (pathAfterSubst tp path)).map
          Prod.fst := by
      rw [hS', List.map_map]
      rfl
    rw [file_exists_remote_eval user host path tp maxa alog ne strict w hh hret
      _ rfl hRne, hmap]

/-! ## Claim C5 -/

/-- C5: for every `file_exists` call — local glob or successful remote
listing — in which candidates survive filtering, the returned satisfied
flag is true iff `num_expected` is unset or equals the surviving candidate
count: the flag is `num_expected.all (S.length == ·)` where `S` is the
surviving candidate list of the call. -/
theorem c5_num_expected_enforced (user : Option String) (host path : String)
    (tp : Option TimePointFields) (maxa : Option Int) (alog : Option String)
    (ne : Option Nat) (strict : Bool) (w : FsWorld)
    (hmode : host ∈ LOCAL_HOST_EQUIVALENTS ∨ w.rsyncRet = 0)
    (S : List (String × Int))
    (hS : S = feSurvivors user host path tp maxa alog w)
    (hfound : S ≠ []) :
    (file_exists user host path tp maxa alog ne strict w).map Prod.fst
      = Except.ok (ne.all (fun n => S.length == n)) := by
  rw [file_exists_eval user host path tp maxa alog ne strict w hmode S hS hfound]
  rw [fe_finish_map_fst _ _ _ (fun h => hfound (List.map_eq_nil_iff.mp h))]
  simp [List.length_map]

/-- Witness for C5: locally, three surviving candidates with
`num_expected=2` give found `false`, with `num_expected=3` and `None`
found `true`; remotely, two listed candidates with `num_expected=2` give
found `true` and with `num_expected=1` found `false`. -/
theorem c5_num_expected_enforced_witness :
    ((file_exists none "localhost" "/x" none none none (some 2) false
        sampleWorld).map Prod.fst = Except.ok false)
    ∧ ((file_exists none "localhost" "/x" none none none (some 3) false
        sampleWorld).map Prod.fst = Except.ok true)
    ∧ ((file_exists none "localhost" "/x" none none none none false
        sampleWorld).map Prod.fst = Except.ok true)
    ∧ ((file_exists none "far" "/x" none none none (some 2) false
        listedWorld).map Prod.fst = Except.ok true)
    ∧ ((file_exists none "far" "/x" none none none (some 1) false
        listedWorld).map Prod.fst = Except.ok false) := by
  refine ⟨?_, ?_, ?_, ?_, ?_⟩
  · rw [c5_num_expected_enforced none "localhost" "/x" none none none (some 2)
      false sampleWorld (Or.inl (by decide)) [("/b", 7), ("/c", 6), ("/a", 5)]
      rfl (by decide)]
    rfl
  · rw [c5_num_expected_enforced none "localhost" "/x" none none none (some 3)
      false sampleWorld (Or.inl (by decide)) [("/b", 7), ("/c", 6), ("/a", 5)]
      rfl (by decide)]
    rfl
  · rw [c5_num_expected_enforced none "localhost" "/x" none none none none
      false sampleWorld (Or.inl (by decide)) [("/b", 7), ("/c", 6), ("/a", 5)]
      rfl (by decide)]
    rfl
  · rw [c5_num_expected_enforced none "far" "/x" none none none (some 2)
      false listedWorld (Or.inr rfl) [("far:/b", 7), ("far:/a", 5)]
      rfl (by decide)]
    rfl
  · rw [c5_num_expected_enforced none "far" "/x" none none none (some 1)
      false listedWorld (Or.inr rfl) [("far:/b", 7), ("far:/a", 5)]
      rfl (by decide)]
    rfl

/-! ## Claim C4 -/

/-- C4 counterexample: the claim "sorted by strictly descending mtime, and
newest_path == all_paths.split(',')[0]" fails on the code at concrete
inputs.  Two surviving candidates with equal mtime are not strictly
descending, and a single candidate whose path contains a comma has
`newest_path = "a,b"` while `all_paths.split(',')[0] = "a"`. -/
theorem c4_strictness_counterexample :
    (¬ (globSurvivors tieWorld.globResults "" 0).Pairwise
        (fun a b => a.2 > b.2))
    ∧ file_exists none "localhost" "a*" none none none none false commaWorld
        = Except.ok (true,
          [("host", Val.str "localhost"), ("path", Val.str "a*"),
           ("success", Val.bool true), ("all_paths", Val.str "a,b"),
           ("newest_path", Val.str "a,b"), ("oldest_path", Val.str "a,b")])
    ∧ (pySplit ',' "a,b").head? = some "a"
    ∧ ("a" : String) ≠ "a,b" := by
  refine ⟨by decide, by rfl, by rfl, by decide⟩

/-- C4 (amended): for every non-empty surviving candidate list `S` of a
`file_exists` call — local glob or successful remote listing — `S` is
sorted by non-increasing mtime, candidates of each fixed mtime keeping
discovery order (the filtered candidate list restricted to any mtime value
is unchanged by the sort), and — provided no surviving path contains a
comma and `num_expected` does not flip the result — the returned
attributes satisfy `newest_path == all_paths.split(',')[0]` and
`oldest_path == all_paths.split(',')[-1]`. -/
theorem c4_sorted_and_newest_oldest (user : Option String) (host path : String)
    (tp : Option TimePointFields) (maxa : Option Int) (alog : Option String)
    (ne : Option Nat) (strict : Bool) (w : FsWorld)
    (hmode : host ∈ LOCAL_HOST_EQUIVALENTS ∨ w.rsyncRet = 0)
    (S : List (String × Int))
    (hS : S = feSurvivors user host path tp maxa alog w)
    (hfound : S ≠ [])
    (hcomma : ∀ p ∈ S, ¬ (',' ∈ p.1.toList))
    (hnum : ne = none ∨ ne = some S.length) :
    S.Pairwise mtimeGE
    ∧ (∀ m : Int, S.filter (fun p => p.2 == m)
        = (feCandidatesUnsorted user host path tp maxa alog w).filter
            (fun p => p.2 == m))
    ∧ ∃ d, file_exists user host path tp maxa alog ne strict w
        = Except.ok (true, d) ∧
      dget d "all_paths" = some (Val.str (pyJoinComma (S.map Prod.fst))) ∧
      dget d "newest_path"
        = ((pySplit ',' (pyJoinComma (S.map Prod.fst))).head?).map Val.str ∧
      dget d "oldest_path"
        = ((pySplit ',' (pyJoinComma (S.map Prod.fst))).getLast?).map Val.str := by
  have hmapne : S.map Prod.fst ≠ [] := fun h => hfound (List.map_eq_nil_iff.mp h)
  obtain ⟨nw, hnw⟩ : ∃ nw, (S.map Prod.fst).head? = some nw := by
    cases h : S.map Prod.fst with
    | nil => exact absurd h hmapne
    | cons a l => exact ⟨a, rfl⟩
  obtain ⟨ol, hol⟩ : ∃ ol, (S.map Prod.fst).getLast? = some ol := by
    cases h : (S.map Prod.fst).getLast? with
    | none => exact absurd (List.getLast?_eq_none_iff.mp h) hmapne
    | some x => exact ⟨x, rfl⟩
  have hsplit : pySplit ',' (pyJoinComma (S.map Prod.fst)) = S.map Prod.fst := by
    apply pySplit_pyJoinComma _ hmapne
    intro x hx
    obtain ⟨p, hp, rfl⟩ := List.mem_map.mp hx
    exact hcomma p hp
  refine ⟨?_, ?_, ?_⟩
  · rw [hS]
    exact pairwise_feSurvivors user host path tp maxa alog w
  · intro m
    rw [hS]
    exact feSurvivors_filter_mtime user host path tp maxa alog w m
  · rw [file_exists_eval user host path tp maxa alog ne strict w hmode S hS
      hfound]
    rw [fe_finish_found _ _ _ (by simpa [List.length_map] using hnum) nw ol hnw hol]
    refine ⟨_, rfl, ?_, ?_, ?_⟩
    · rw [dget_dset_ne _ _ _ _ (by decide), dget_dset_ne _ _ _ _ (by decide),
        dget_dset_self]
    · rw [dget_dset_ne _ _ _ _ (by decide), dget_dset_self, hsplit, hnw]
      rfl
    · rw [dget_dset_self, hsplit, hol]
      rfl

/-- Witness for C4 (amended): locally at two equal-mtime comma-free
candidates (exhibiting tie stability: the survivors at mtime 5 are in glob
discovery order) and remotely at two listed candidates. -/
theorem c4_sorted_and_newest_oldest_witness :
    (([("a", 5), ("b", 5)] : List (String × Int)).Pairwise mtimeGE
    ∧ ([("a", 5), ("b", 5)] : List (String × Int)).filter (fun p => p.2 == 5)
        = (feCandidatesUnsorted none "localhost" "a*" none none none
            tieWorld).filter (fun p => p.2 == 5)
    ∧ ∃ d, file_exists none "localhost" "a*" none none none none false tieWorld
        = Except.ok (true, d) ∧
      dget d "all_paths" = some (Val.str (pyJoinComma ["a", "b"])) ∧
      dget d "newest_path"
        = ((pySplit ',' (pyJoinComma ["a", "b"])).head?).map Val.str ∧
      dget d "oldest_path"
        = ((pySplit ',' (pyJoinComma ["a", "b"])).getLast?).map Val.str)
    ∧ (([("far:/b", 7), ("far:/a", 5)] : List (String × Int)).Pairwise mtimeGE
    ∧ ∃ d, file_exists none "far" "/x" none none none none false listedWorld
        = Except.ok (true, d) ∧
      dget d "all_paths" = some (Val.str (pyJoinComma ["far:/b", "far:/a"])) ∧
      dget d "newest_path"
        = ((pySplit ',' (pyJoinComma ["far:/b", "far:/a"])).head?).map Val.str ∧
      dget d "oldest_path"
        = ((pySplit ',' (pyJoinComma ["far:/b", "far:/a"])).getLast?).map
            Val.str) := by
  constructor
  · have h := c4_sorted_and_newest_oldest none "localhost" "a*" none none none
      none false tieWorld (Or.inl (by decide)) [("a", 5), ("b", 5)] rfl
      (by decide) (by decide) (Or.inl rfl)
    exact ⟨h.1, by simpa using h.2.1 5, by simpa using h.2.2⟩
  · have h := c4_sorted_and_newest_oldest none "far" "/x" none none none
      none false listedWorld (Or.inr rfl) [("far:/b", 7), ("far:/a", 5)] rfl
      (by decide) (by decide) (Or.inl rfl)
    exact ⟨h.1, by simpa using h.2.2⟩

/-! ## Claim C10 -/

/-- C10: for every `file_exists` call — local glob or successful remote
listing, so candidates are found and `strict_retry` does not force a
terminal negative — a `num_expected` mismatch returns satisfied `false`
while the attributes still carry `success = True` and omit
`all_paths`/`newest_path`/`oldest_path`. -/
theorem c10_num_mismatch_keeps_success (user : Option String)
    (host path : String) (tp : Option TimePointFields) (maxa : Option Int)
    (alog : Option String) (ne : Option Nat) (strict : Bool) (w : FsWorld)
    (hmode : host ∈ LOCAL_HOST_EQUIVALENTS ∨ w.rsyncRet = 0)
    (S : List (String × Int))
    (hS : S = feSurvivors user host path tp maxa alog w)
    (hfound : S ≠ []) (n : Nat) (hne2 : ne = some n) (hmm : S.length ≠ n) :
    ∃ d, file_exists user host path tp maxa alog ne strict w
        = Except.ok (false, d) ∧
      dget d "success" = some (Val.bool true) ∧
      dget d "all_paths" = none ∧
      dget d "newest_path" = none ∧
      dget d "oldest_path" = none := by
  rw [file_exists_eval user host path tp maxa alog ne strict w hmode S hS
    hfound, hne2]
  rw [fe_finish_num_mismatch _ _ _ (by simpa [List.length_map] using hmm)]
  refine ⟨_, rfl, ?_, ?_, ?_, ?_⟩
  · exact dget_dset_self _ _ _
  · rw [dget_dset_ne _ _ _ _ (by decide)]
    rfl
  · rw [dget_dset_ne _ _ _ _ (by decide)]
    rfl
  · rw [dget_dset_ne _ _ _ _ (by decide)]
    rfl

/-- Witness for C10: locally three candidates with `num_expected=2`, and
remotely (strict_retry=True, listing succeeded) two candidates with
`num_expected=1`. -/
theorem c10_num_mismatch_keeps_success_witness :
    (∃ d, file_exists none "localhost" "/x" none none none (some 2) false
        sampleWorld = Except.ok (false, d) ∧
      dget d "success" = some (Val.bool true) ∧
      dget d "all_paths" = none ∧
      dget d "newest_path" = none ∧
      dget d "oldest_path" = none)
    ∧ (∃ d, file_exists none "far" "/x" none none none (some 1) true
        listedWorld = Except.ok (false, d) ∧
      dget d "success" = some (Val.bool true) ∧
      dget d "all_paths" = none ∧
      dget d "newest_path" = none ∧
      dget d "oldest_path" = none) :=
  ⟨c10_num_mismatch_keeps_success none "localhost" "/x" none none none (some 2)
    false sampleWorld (Or.inl (by decide)) [("/b", 7), ("/c", 6), ("/a", 5)]
    rfl (by decide) 2 rfl (by decide),
   c10_num_mismatch_keeps_success none "far" "/x" none none none (some 1)
    true listedWorld (Or.inr rfl) [("far:/b", 7), ("far:/a", 5)]
    rfl (by decide) 1 rfl (by decide)⟩

/-! ## Claim C6 -/

/-- C6: in remote mode with `strict_retry=True` and a non-zero listing exit
code, an exit code in `RSYNC_RETRY_VALUES` yields `(found=False,
success=False)` (a retry) and any other exit code yields `(found=True,
success=False)` (a terminal negative). -/
theorem c6_strict_remote_classification (user : Option String)
    (host path : String) (tp : Option TimePointFields) (maxa : Option Int)
    (alog : Option String) (ne : Option Nat) (w : FsWorld)
    (hhost : host ∉ LOCAL_HOST_EQUIVALENTS) (hret : w.rsyncRet ≠ 0) :
    (w.rsyncRet ∈ RSYNC_RETRY_VALUES →
      file_exists user host path tp maxa alog ne true w
        = Except.ok (false,
            [("host", Val.str host), ("path", Val.str (pathAfterSubst tp path)),
             ("success", Val.bool false)]))
    ∧ (w.rsyncRet ∉ RSYNC_RETRY_VALUES →
      file_exists user host path tp maxa alog ne true w
        = Except.ok (true,
            [("host", Val.str host), ("path", Val.str (pathAfterSubst tp path)),
             ("success", Val.bool false)])) := by
  have hdset : dset [("host", Val.str host),
      ("path", Val.str (pathAfterSubst tp path))] "success" (Val.bool false)
      = [("host", Val.str host), ("path", Val.str (pathAfterSubst tp path)),
         ("success", Val.bool false)] := rfl
  constructor
  · intro hmem
    rw [← hdset, ← fe_finish_success_false _ (none : Option (List String)) ne false]
    simp [file_exists, hhost, hret, hmem]
  · intro hmem
    rw [← hdset, ← fe_finish_success_false _ (none : Option (List String)) ne true]
    simp [file_exists, hhost, hret, hmem]

/-- Witness for C6: exit code 23 (retryable) and exit code 1 (terminal). -/
theorem c6_strict_remote_classification_witness :
    (file_exists none "far" "/x" none none none none true (remoteWorld 23)
      = Except.ok (false,
          [("host", Val.str "far"), ("path", Val.str "/x"),
           ("success", Val.bool false)]))
    ∧ (file_exists none "far" "/x" none none none none true (remoteWorld 1)
      = Except.ok (true,
          [("host", Val.str "far"), ("path", Val.str "/x"),
           ("success", Val.bool false)])) := by
  constructor
  · exact (c6_strict_remote_classification none "far" "/x" none none none none
      (remoteWorld 23) (by decide) (by decide)).1 (by decide)
  · exact (c6_strict_remote_classification none "far" "/x" none none none none
      (remoteWorld 1) (by decide) (by decide)).2 (by decide)

/-! ## Claim C1 -/

/-- C1 (code bug): `file_exists` on a local host with `strict_retry=True`
and no surviving candidate raises `NameError` on the unbound local `ret`,
and `file_contains` with `regex=True` on a found file whose contents do
not match raises `NameError` on the unbound local `result` — neither call
returns a `(bool, dict)` pair. -/
theorem c1_unbound_local_errors :
    file_exists none "localhost" "/nope" none none none none true
        emptyLocalWorld
      = Except.error (PyErr.nameError "ret")
    ∧ file_contains "pat" true "localhost" none false
        (Except.ok (true, [("host", Val.str "localhost"),
          ("path", Val.str "/f"), ("success", Val.bool true)]))
        "data" (fun _ _ => none)
      = Except.error (PyErr.nameError "result") :=
  ⟨rfl, rfl⟩

/-! ## Success-key preservation lemmas -/

theorem fe_attrs_ok_success (results : Dict) (items : Option (List String))
    (success found : Bool) (v : Option Val) (pr : Bool × Dict)
    (hres : dget results "success" = v)
    (h : fe_attrs results items success found = Except.ok pr) :
    dget pr.2 "success" = v := by
  unfold fe_attrs at h
  by_cases hfs : (found && success) = true
  · rw [if_pos hfs] at h
    split at h
    · simp at h
    · split at h
      · rw [Except.ok.injEq] at h
        subst h
        rw [dget_dset_ne _ _ _ _ (by decide), dget_dset_ne _ _ _ _ (by decide),
          dget_dset_ne _ _ _ _ (by decide)]
        exact hres
      · simp at h
  · rw [if_neg hfs] at h
    rw [Except.ok.injEq] at h
    subst h
    exact hres

theorem fe_finish_ok_success (results : Dict) (items : Option (List String))
    (ne : Option Nat) (found success : Bool) (pr : Bool × Dict)
    (h : fe_finish results items ne found success = Except.ok pr) :
    dget pr.2 "success" = some (Val.bool success) := by
  cases ne with
  | none =>
    simp only [fe_finish] at h
    exact fe_attrs_ok_success _ _ _ _ _ _ (dget_dset_self _ _ _) h
  | some n =>
    simp only [fe_finish] at h
    by_cases hfs : (found && success) = true
    · rw [if_pos hfs] at h
      cases items with
      | none => simp at h
      | some its =>
        exact fe_attrs_ok_success _ _ _ _ _ _ (dget_dset_self _ _ _) h
    · rw [if_neg hfs] at h
      exact fe_attrs_ok_success _ _ _ _ _ _ (dget_dset_self _ _ _) h

theorem file_exists_ok_success (user : Option String) (host path : String)
    (tp : Option TimePointFields) (maxa : Option Int) (alog : Option String)
    (ne : Option Nat) (strict : Bool) (w : FsWorld) (pr : Bool × Dict)
    (h : file_exists user host path tp maxa alog ne strict w = Except.ok pr) :
    ∃ b, dget pr.2 "success" = some (Val.bool b) := by
  simp only [file_exists] at h
  repeat' split at h
  all_goals
    first
      | exact ⟨_, fe_finish_ok_success _ _ _ _ _ _ h⟩
      | simp at h

theorem file_contains_ok_success (text : String) (regex : Bool)
    (host : String) (mnl : Option Nat) (strict : Bool)
    (feR : Except PyErr (Bool × Dict)) (data : String)
    (reS : String → String → Option String) (pr : Bool × Dict)
    (h : file_contains text regex host mnl strict feR data reS
      = Except.ok pr) :
    ∃ b, dget pr.2 "success" = some (Val.bool b) := by
  obtain ⟨pb, pd⟩ := pr
  show ∃ b, dget pd "success" = some (Val.bool b)
  simp only [file_contains] at h
  repeat' split at h
  all_goals try simp at h
  all_goals
    obtain ⟨h1, h2⟩ := h
    subst h2
    exact ⟨_, dget_dset_self _ _ _⟩

theorem xtrig_handle_result_shape (env : CallEnv) (suite point : String)
    (task : Option String) (share : String) (d1 d2 d3 : Option Int)
    (rps : Option String) (s : Bool) (dd : Dict) (marker : Option Int) :
    (xtrig_handle env suite point task share d1 d2 d3 rps
        (Except.ok (s, dd)) none marker).1 = Except.ok (false, [])
    ∨ ∃ s2, (xtrig_handle env suite point task share d1 d2 d3 rps
        (Except.ok (s, dd)) none marker).1 = Except.ok (s2, dd) := by
  simp only [xtrig_handle]
  split
  · left
    rfl
  · right
    exact ⟨_, rfl⟩

/-! ## Claim C3 -/

/-- C3 counterexample: a wrapped call whose start delay has not expired
returns `(False, {})` — the attributes dictionary is empty and has no
`success` key at all, contradicting the claim for the "start delay
unexpired" outcome. -/
theorem c3_gate_closed_counterexample :
    (xtrig_handle (envAt 0) "s" "1" (some "t") "/share" (some 10) none none
        none baseNotFound none none).1 = Except.ok (false, [])
    ∧ dget [] "success" = none :=
  ⟨rfl, rfl⟩

/-- C3 (amended): whenever the base checker runs and returns normally, the
returned attributes contain a boolean `success` key — all three base
checkers guarantee it, the combinator passes the base dictionary through
unchanged (possibly flipping only the satisfied flag), and the nested
bypass returns the base result untouched; however the gate-closed and
start-delay short-circuits return `(False, {})` with no `success` key. -/
theorem c3_success_key_amended :
    (∀ (user : Option String) (host path : String)
      (tp : Option TimePointFields) (maxa : Option Int) (alog : Option String)
      (ne : Option Nat) (strict : Bool) (w : FsWorld) (pr : Bool × Dict),
      file_exists user host path tp maxa alog ne strict w = Except.ok pr →
      ∃ b, dget pr.2 "success" = some (Val.bool b))
    ∧ (∀ (text : String) (regex : Bool) (host : String) (mnl : Option Nat)
      (strict : Bool) (feR : Except PyErr (Bool × Dict)) (data : String)
      (reS : String → String → Option String) (pr : Bool × Dict),
      file_contains text regex host mnl strict feR data reS = Except.ok pr →
      ∃ b, dget pr.2 "success" = some (Val.bool b))
    ∧ (∀ r : Bool × Dict,
      dget (suite_state_plus r).2 "success" = some (Val.bool r.1))
    ∧ (∀ (env : CallEnv) (suite point : String) (task : Option String)
      (share : String) (d1 d2 d3 : Option Int) (rps : Option String)
      (s : Bool) (dd : Dict) (marker : Option Int),
      (xtrig_handle env suite point task share d1 d2 d3 rps
          (Except.ok (s, dd)) none marker).1 = Except.ok (false, [])
      ∨ ∃ s2, (xtrig_handle env suite point task share d1 d2 d3 rps
          (Except.ok (s, dd)) none marker).1 = Except.ok (s2, dd))
    ∧ (∀ (env : CallEnv) (suite point : String) (task : Option String)
      (share : String) (d1 d2 d3 : Option Int) (rps : Option String)
      (base : Except PyErr (Bool × Dict)) (hd : TimeoutHandler)
      (marker : Option Int),
      xtrig_handle env suite point task share d1 d2 d3 rps base (some hd)
        marker = (base, some hd, marker)) := by
  refine ⟨?_, ?_, ?_, ?_, ?_⟩
  · intro user host path tp maxa alog ne strict w pr h
    exact file_exists_ok_success user host path tp maxa alog ne strict w pr h
  · intro text regex host mnl strict feR data reS pr h
    exact file_contains_ok_success text regex host mnl strict feR data reS pr h
  · intro r
    exact dget_dset_self _ _ _
  · intro env suite point task share d1 d2 d3 rps s dd marker
    exact xtrig_handle_result_shape env suite point task share d1 d2 d3 rps
      s dd marker
  · intro env suite point task share d1 d2 d3 rps base hd marker
    rfl

/-- Witness for C3 (amended): a concrete `file_exists` run whose result
dictionary carries the `success` boolean, and `suite_state_plus` adding it
to an empty dictionary. -/
theorem c3_success_key_amended_witness :
    (∃ b, dget [("host", Val.str "localhost"), ("path", Val.str "/x"),
      ("success", Val.bool true), ("all_paths", Val.str "/b,/c,/a"),
      ("newest_path", Val.str "/b"), ("oldest_path", Val.str "/a")] "success"
        = some (Val.bool b))
    ∧ dget (suite_state_plus (true, [])).2 "success"
        = some (Val.bool true) := by
  constructor
  · exact c3_success_key_amended.1 none "localhost" "/x" none none none none
      false sampleWorld (true, [("host", Val.str "localhost"),
        ("path", Val.str "/x"), ("success", Val.bool true),
        ("all_paths", Val.str "/b,/c,/a"), ("newest_path", Val.str "/b"),
        ("oldest_path", Val.str "/a")]) rfl
  · exact c3_success_key_amended.2.2.1 (true, [])

/-! ## Claim C7 -/

/-- C7: `has_timeout_expired(found)` returns true unconditionally when
`found` is true; otherwise with `timeout_first_run` configured (taking
precedence over `timeout_cycle_offset`) it lazily creates the marker
(mtime `now`) and returns true iff `now >= marker_mtime +
timeout_first_run`; with only `timeout_cycle_offset` configured it returns
true iff `now >= point_as_seconds + timeout_cycle_offset`; with neither it
returns `found` unchanged. -/
theorem c7_has_timeout_expired_cases (h : TimeoutHandler) (now : Int)
    (pas : String → Int) (marker : Option Int) (found : Bool) :
    (found = true →
      h.has_timeout_expired now pas marker found = (true, marker))
    ∧ (∀ t, found = false → h.timeout_first_run = some t →
        h.has_timeout_expired now pas marker found
          = (decide (marker.getD now + t ≤ now), some (marker.getD now)))
    ∧ (∀ t, found = false → h.timeout_first_run = none →
        h.timeout_cycle_offset = some t →
        h.has_timeout_expired now pas marker found
          = (decide (pas h.point + t ≤ now), marker))
    ∧ (h.timeout_first_run = none → h.timeout_cycle_offset = none →
        h.has_timeout_expired now pas marker found = (found, marker)) := by
  refine ⟨?_, ?_, ?_, ?_⟩
  · rintro rfl
    simp [TimeoutHandler.has_timeout_expired]
  · rintro t rfl htfr
    cases marker <;>
      simp [TimeoutHandler.has_timeout_expired, htfr, wall_clock, Option.getD]
  · rintro t rfl htfr htco
    simp [TimeoutHandler.has_timeout_expired, htfr, htco, wall_clock]
  · rintro htfr htco
    cases found <;> simp [TimeoutHandler.has_timeout_expired, htfr, htco]

/-- Witness for C7: a handler with `timeout_first_run = 5` at `now = 10`
with an existing marker at 2 (expired), at `now = 3` with no marker
(created at 3, not expired), one with only `timeout_cycle_offset = 5` at
`now = 10` (expired), one with neither (returns found), and the
`found = true` short-circuit. -/
theorem c7_has_timeout_expired_cases_witness :
    ((mkTimeoutHandler "handle" "p" "t" "/s" none (some 5) none).has_timeout_expired
        10 pasZero (some 2) false = (true, some 2))
    ∧ ((mkTimeoutHandler "handle" "p" "t" "/s" none (some 5) none).has_timeout_expired
        3 pasZero none false = (false, some 3))
    ∧ ((mkTimeoutHandler "handle" "p" "t" "/s" none none (some 5)).has_timeout_expired
        10 pasZero none false = (true, none))
    ∧ ((mkTimeoutHandler "handle" "p" "t" "/s" none none none).has_timeout_expired
        10 pasZero none false = (false, none))
    ∧ ((mkTimeoutHandler "handle" "p" "t" "/s" none (some 5) none).has_timeout_expired
        10 pasZero none true = (true, none)) := by
  refine ⟨?_, ?_, ?_, ?_, ?_⟩
  · exact ((c7_has_timeout_expired_cases (mkTimeoutHandler "handle" "p" "t" "/s"
      none (some 5) none) 10 pasZero (some 2) false).2.1 5 rfl rfl).trans (by decide)
  · exact ((c7_has_timeout_expired_cases (mkTimeoutHandler "handle" "p" "t" "/s"
      none (some 5) none) 3 pasZero none false).2.1 5 rfl rfl).trans (by decide)
  · exact ((c7_has_timeout_expired_cases (mkTimeoutHandler "handle" "p" "t" "/s"
      none none (some 5)) 10 pasZero none false).2.2.1 5 rfl rfl rfl).trans (by decide)
  · exact ((c7_has_timeout_expired_cases (mkTimeoutHandler "handle" "p" "t" "/s"
      none none none) 10 pasZero none false).2.2.2 rfl rfl)
  · exact ((c7_has_timeout_expired_cases (mkTimeoutHandler "handle" "p" "t" "/s"
      none (some 5) none) 10 pasZero none true).1 rfl)

/-! ## Claim C8 -/

/-- C8: with a connected store, `previous_finished` returns true iff every
cycle among (at most) the two most recent cycle points strictly before the
given point for the named task has the required status — vacuously true
when fewer exist; the examined cycles all satisfy the prior-cycle
predicate and number at most two. -/
theorem c8_previous_gate (st : Store) (reparse : String → String → String)
    (suite share_dir point task status : String) (pt : String)
    (hpt : pt = match st.remotePointFormat with
      | some fmt => reparse point fmt
      | none => point) :
    previous_finished (some st) reparse suite share_dir point task status
      = (priorCycles st pt task).all
          (fun cp => task_state_met st task cp status)
    ∧ (priorCycles st pt task).length ≤ 2
    ∧ (∀ cp ∈ priorCycles st pt task, priorCyclePred pt cp = true) := by
  refine ⟨?_, ?_, ?_⟩
  · subst hpt
    rfl
  · unfold priorCycles
    exact List.length_take_le 2 _
  · intro cp hcp
    unfold priorCycles at hcp
    have hmem := List.mem_of_mem_take hcp
    by_cases hd : pyIsdigit pt
    · rw [if_pos hd] at hmem
      have hcyc := (List.perm_insertionSort _ _).mem_iff.mp hmem
      obtain ⟨r, hr, rfl⟩ := List.mem_map.mp hcyc
      have hpred := (List.mem_filter.mp hr).2
      simp only [Bool.and_eq_true] at hpred
      exact hpred.2
    · rw [if_neg hd] at hmem
      have hcyc := (List.perm_insertionSort _ _).mem_iff.mp hmem
      obtain ⟨r, hr, rfl⟩ := List.mem_map.mp hcyc
      have hpred := (List.mem_filter.mp hr).2
      simp only [Bool.and_eq_true] at hpred
      exact hpred.2

/-- Witness for C8: store cycles `[3,2,1]`, task `bar` succeeded at `2`
and `1`, point `3`: the gate passes. -/
theorem c8_previous_gate_witness :
    previous_finished (some sampleStore) reparseId "s" "d" "3" "bar"
      "succeeded" = true := by
  rw [(c8_previous_gate sampleStore reparseId "s" "d" "3" "bar" "succeeded"
    "3" rfl).1]
  rfl

/-! ## Claim C9 -/

/-- C9 (code bug): the marker path built by the combinator is
`<share>/data/xtrigger.handle.<task>.<point>` for every wrapped checker —
the `parent` component is the decorator wrapper's code-object name
`handle`, not the wrapped checker's name, so two distinct wrapped checkers
with the same dependent task and point share one marker file instead of
using distinct ones. -/
theorem c9_marker_path_constant_parent :
    (mkTimeoutHandler WRAPPER_CO_NAME "1" "t" "/s" none none none).tmpfile
      = "/s/data/xtrigger.handle.t.1"
    ∧ ((xtrig_handle (envAt 0) "s" "1" (some "t") "/s" none none none none
          baseNotFound none none).2.1).map TimeoutHandler.tmpfile
        = some "/s/data/xtrigger.handle.t.1"
    ∧ ("/s/data/xtrigger.handle.t.1" : String)
        ≠ "/s/data/xtrigger.file_exists.t.1" := by
  refine ⟨rfl, rfl, by decide⟩

/-! ## Claim C2 -/

/-- C2 (code bug): `handle.handler` is never reset after a call, so the
second external invocation of the same wrapped checker returns the base
checker's raw result and leaves the marker untouched — applying the
timeout combinator zero times — although a fresh invocation at the same
instant (handler attribute clear, same marker state) would have returned a
timeout-forced `true`. -/
theorem c2_second_call_skips_combinator :
    ((xtrig_handle_twice (envAt 0) (envAt 100) "s" "1" (some "t") "/share"
        none (some 5) none none baseNotFound baseNotFound).2).1 = baseNotFound
    ∧ ((xtrig_handle_twice (envAt 0) (envAt 100) "s" "1" (some "t") "/share"
        none (some 5) none none baseNotFound baseNotFound).1).2.2 = some 0
    ∧ ((xtrig_handle_twice (envAt 0) (envAt 100) "s" "1" (some "t") "/share"
        none (some 5) none none baseNotFound baseNotFound).2).2.2 = some 0
    ∧ (xtrig_handle (envAt 100) "s" "1" (some "t") "/share" none (some 5)
        none none baseNotFound none (some 0)).1
      = Except.ok (true, [("success", Val.bool false)]) := by
  refine ⟨rfl, rfl, rfl, rfl⟩

end Cylc
